import Mathlib

set_option maxRecDepth 10000

/-!
Verification of the static image asset in `src/elka.h`.

The repository consists of a single C header declaring dimension macros
(`IMAGE_HEIGHT`, `IMAGE_WIDTH`, `PIXEL_SIZE`, `IMAGE_LENGTH`) and a
`uint8_t image[IMAGE_LENGTH]` array of 384 byte literals in row-major
order.  We embed the constants as `Nat` definitions, the buffer as a
`List Nat` holding exactly the source's literals, and reads as
bounds-checked `List.get?` lookups.  To talk about side effects we also
model process memory as a one-field state and a read operation that
returns the looked-up byte together with the (unchanged) state.
-/

def IMAGE_HEIGHT : Nat := 24

def IMAGE_WIDTH : Nat := 16

def PIXEL_SIZE : Nat := 1

def IMAGE_LENGTH : Nat := IMAGE_WIDTH * IMAGE_HEIGHT * PIXEL_SIZE

/-- The pixel buffer `image` from `src/elka.h`, row-major, 16 bytes per
row, 24 rows, transcribed literal for literal. -/
def image : List Nat := [
0xff, 0xff, 0xff, 0xff, 0xff, 0xff, 0xff, 0x95, 0xfe, 0xff, 0xff, 0xff, 0xff, 0xff, 0xff, 0xff,
0xff, 0xff, 0xff, 0xff, 0xff, 0xff, 0x8f, 0x92, 0x92, 0xf9, 0xff, 0xff, 0xff, 0xff, 0xff, 0xff,
0xff, 0xff, 0xff, 0xff, 0xff, 0xfa, 0x91, 0x9c, 0x93, 0x92, 0xfe, 0xff, 0xff, 0xff, 0xff, 0xff,
0xff, 0xff, 0xff, 0xff, 0xfd, 0x99, 0x93, 0x95, 0x97, 0x94, 0x94, 0xfd, 0xfd, 0xff, 0xff, 0xff,
0xff, 0xff, 0xff, 0xfe, 0x91, 0x94, 0x94, 0x93, 0x98, 0x94, 0x9a, 0x99, 0xfe, 0xff, 0xff, 0xff,
0xff, 0xff, 0xff, 0xff, 0xff, 0xfd, 0x99, 0x91, 0x90, 0x98, 0xfe, 0xfe, 0xfe, 0xff, 0xff, 0xff,
0xff, 0xff, 0xff, 0xff, 0xee, 0x9b, 0x9c, 0x94, 0x90, 0x99, 0x9a, 0xfd, 0xff, 0xff, 0xff, 0xff,
0xff, 0xff, 0xff, 0x93, 0x93, 0x9a, 0x9a, 0x94, 0x94, 0x9a, 0x8f, 0x90, 0xfc, 0xff, 0xff, 0xff,
0xff, 0xff, 0xfb, 0x98, 0x91, 0x93, 0x9a, 0x8f, 0x9d, 0x97, 0x94, 0x8f, 0x98, 0xff, 0xff, 0xff,
0xff, 0xff, 0xff, 0xff, 0xfb, 0x93, 0x93, 0x8e, 0x94, 0x98, 0x8e, 0xfb, 0xff, 0xff, 0xff, 0xff,
0xff, 0xff, 0xff, 0xfe, 0x93, 0x98, 0x97, 0x95, 0x96, 0x9c, 0x95, 0x9b, 0xfc, 0xff, 0xff, 0xff,
0xff, 0xff, 0xfe, 0x95, 0x90, 0x96, 0x99, 0x97, 0x95, 0x9c, 0x94, 0x98, 0x90, 0xff, 0xff, 0xff,
0xff, 0xfd, 0x9e, 0x9b, 0x8f, 0x90, 0x9e, 0x9d, 0x97, 0x9c, 0x93, 0x95, 0x98, 0x95, 0xff, 0xff,
0xff, 0xff, 0xff, 0xff, 0xfd, 0x90, 0x98, 0x9c, 0x9c, 0x9c, 0x98, 0xfa, 0xfd, 0xff, 0xff, 0xff,
0xff, 0xff, 0xff, 0xac, 0x98, 0x9c, 0x9c, 0x9c, 0x9c, 0x9c, 0x94, 0x95, 0xfc, 0xff, 0xff, 0xff,
0xff, 0xfe, 0x96, 0x8f, 0x91, 0x99, 0x97, 0x92, 0x99, 0x99, 0x92, 0x96, 0x98, 0xb1, 0xff, 0xff,
0xff, 0x93, 0x98, 0x94, 0x93, 0x98, 0x99, 0x97, 0x99, 0x9c, 0x97, 0x9a, 0x9c, 0x8b, 0x89, 0xff,
0xff, 0xfe, 0xfe, 0xff, 0xfe, 0xfe, 0xfe, 0xfe, 0xfe, 0xfe, 0xfe, 0xfd, 0xfe, 0xff, 0xfe, 0xff,
0xff, 0xff, 0xff, 0xff, 0xff, 0xff, 0xff, 0xa7, 0xa7, 0xff, 0xff, 0xff, 0xff, 0xff, 0xff, 0xff,
0xff, 0xff, 0xff, 0xff, 0xff, 0xff, 0xff, 0x99, 0x99, 0xff, 0xff, 0xff, 0xff, 0xff, 0xff, 0xff,
0xff, 0xff, 0xff, 0xff, 0xff, 0xff, 0xff, 0xb1, 0xa9, 0xff, 0xff, 0xff, 0xff, 0xff, 0xff, 0xff,
0xff, 0xff, 0xff, 0xff, 0xff, 0xff, 0xff, 0xb0, 0xb1, 0xff, 0xff, 0xff, 0xff, 0xff, 0xff, 0xff,
0xff, 0xff, 0xff, 0xff, 0xff, 0xff, 0xff, 0xb6, 0xb1, 0xff, 0xff, 0xff, 0xff, 0xff, 0xff, 0xff,
0xff, 0xff, 0xff, 0xff, 0xff, 0xff, 0xff, 0xb6, 0xb1, 0xff, 0xff, 0xff, 0xff, 0xff, 0xff, 0xff]

/-- Bounds-checked read of the pixel buffer at a flat index: `some` of
the stored byte when the index is in range, `none` otherwise. -/
def imageGet (i : Nat) : Option Nat := image.get? i

/-- Process memory as far as this repository is concerned: just the
pixel buffer. -/
structure MemState where
  buf : List Nat
deriving DecidableEq

/-- The state at program start: the buffer holds the literals of
`src/elka.h` and, being `const`-like data, is never written. -/
def initState : MemState := ⟨image⟩

/-- A read of flat index `i`: returns the looked-up byte (if in range)
together with the resulting memory state.  Reading writes nothing, so
the state comes back unchanged. -/
def readPixel (s : MemState) (i : Nat) : Option Nat × MemState :=
  (s.buf.get? i, s)

/-- Claim C1: the pixel buffer `image` has exactly 384 elements, and
this element count equals the declared length constant `IMAGE_LENGTH`. -/
theorem image_length_eq_384 : image.length = 384 ∧ image.length = IMAGE_LENGTH := by
  constructor <;> rfl

/-- Claim C2 counterexample: reading flat index 128 (row 8, col 0) does
NOT return `0xfb`; the stored byte there is `0xff`. -/
theorem imageGet_128_ne_fb : ¬ imageGet 128 = some 0xfb := by decide

/-- Claim C2 (amended): reading the pixel buffer at flat index 128
(row 8, col 0) returns `0xff`.  The byte `0xfb` of the spec's scenario
sits at flat index 130 (row 8, col 2), not 128. -/
theorem imageGet_128_eq_ff : imageGet 128 = some 0xff := by decide

/-- Claim C3: the declared dimension constants satisfy width = 16,
height = 24, pixel size = 1, and the derived length constant equals
width * height * pixel_size = 384. -/
theorem dimension_constants :
    IMAGE_WIDTH = 16 ∧ IMAGE_HEIGHT = 24 ∧ PIXEL_SIZE = 1 ∧
    IMAGE_LENGTH = IMAGE_WIDTH * IMAGE_HEIGHT * PIXEL_SIZE ∧ IMAGE_LENGTH = 384 := by
  refine ⟨rfl, rfl, rfl, rfl, rfl⟩

/-- Claim C4: reading the pixel buffer at flat index 7 (row 0, col 7)
returns `0x95`. -/
theorem imageGet_7_eq_95 : imageGet 7 = some 0x95 := by decide

/-- Claim C5 counterexample: reading the last element (flat index 383,
row 23, col 15) does NOT return `0xb1`; the stored byte is `0xff`. -/
theorem imageGet_383_ne_b1 : ¬ imageGet 383 = some 0xb1 := by decide

/-- Claim C5 (amended): reading the last element of the pixel buffer
(row 23, col 15, flat index 383) returns `0xff`.  The nearest `0xb1` of
the last row sits at flat index 376 (row 23, col 8). -/
theorem imageGet_383_eq_ff : imageGet 383 = some 0xff := by decide

/-- Claim C6: every element of the pixel buffer lies in the range
[0, 255]. -/
theorem image_elements_bytes : ∀ x ∈ image, 0 ≤ x ∧ x ≤ 255 := by decide

/-- Witness for C6 at the concrete element read from flat index 0. -/
theorem image_elements_bytes_witness : 0xff ∈ image ∧ 0 ≤ 0xff ∧ 0xff ≤ 255 :=
  ⟨by decide, image_elements_bytes 0xff (by decide)⟩

/-- Claim C7: for every in-range flat index, reading the pixel buffer
twice returns the same value both times, and the state after the first
read still yields that value — the buffer is immutable after
definition. -/
theorem readPixel_idempotent :
    ∀ i, i < IMAGE_LENGTH →
      (readPixel initState i).1 = (readPixel (readPixel initState i).2 i).1 := by
  intro i _
  rfl

/-- Witness for C7 at flat index 7. -/
theorem readPixel_idempotent_witness :
    7 < IMAGE_LENGTH ∧
      (readPixel initState 7).1 = (readPixel (readPixel initState 7).2 7).1 :=
  ⟨by decide, readPixel_idempotent 7 (by decide)⟩

/-- Claim C8: for every flat index `i` with `0 ≤ i < 384`, reading the
pixel buffer at `i` succeeds (returns `some` byte), that byte is the
stored byte of the buffer, and the read leaves the memory state
unchanged — no error condition is reachable for in-range reads. -/
theorem readPixel_in_range_safe :
    ∀ i, i < IMAGE_LENGTH →
      (∃ b, (readPixel initState i).1 = some b ∧ image.get? i = some b) ∧
        (readPixel initState i).2 = initState := by
  intro i hi
  have hlen : i < image.length := by
    have h384 : image.length = IMAGE_LENGTH := image_length_eq_384.2
    omega
  refine ⟨⟨image.get ⟨i, hlen⟩, ?_, ?_⟩, rfl⟩
  · simp [readPixel, initState, List.get?_eq_get hlen]
  · exact List.get?_eq_get hlen

/-- Witness for C8 at flat index 7, where the stored byte is `0x95`. -/
theorem readPixel_in_range_safe_witness :
    7 < IMAGE_LENGTH ∧
      ((∃ b, (readPixel initState 7).1 = some b ∧ image.get? 7 = some b) ∧
        (readPixel initState 7).2 = initState) :=
  ⟨by decide, readPixel_in_range_safe 7 (by decide)⟩

/-- Claim C9: every element of the pixel buffer is at least `0x89`,
so every value lies in the narrower range [0x89, 0xff], and the lower
bound `0x89` is attained at flat index 270. -/
theorem image_elements_lower_bound :
    (∀ x ∈ image, 0x89 ≤ x ∧ x ≤ 0xff) ∧ imageGet 270 = some 0x89 := by
  refine ⟨by decide, by decide⟩

/-- Witness for C9 at the concrete element `0x89`, a member of the
buffer (flat index 270). -/
theorem image_elements_lower_bound_witness :
    0x89 ∈ image ∧ (0x89 ≤ 0x89 ∧ 0x89 ≤ 0xff) ∧ imageGet 270 = some 0x89 :=
  ⟨by decide, image_elements_lower_bound.1 0x89 (by decide),
    image_elements_lower_bound.2⟩

/-- Claim C10: for every row `r` in [0, 24), the first and last pixels
of that row — flat indices `16*r` and `16*r + 15` — both equal `0xff`:
the leftmost and rightmost columns of the image are uniformly `0xff`. -/
theorem image_border_columns_ff :
    ∀ r, r < IMAGE_HEIGHT →
      imageGet (IMAGE_WIDTH * r) = some 0xff ∧
        imageGet (IMAGE_WIDTH * r + 15) = some 0xff := by
  decide

/-- Witness for C10 at row 8, covering flat indices 128 and 143. -/
theorem image_border_columns_ff_witness :
    8 < IMAGE_HEIGHT ∧
      (imageGet (IMAGE_WIDTH * 8) = some 0xff ∧
        imageGet (IMAGE_WIDTH * 8 + 15) = some 0xff) :=
  ⟨by decide, image_border_columns_ff 8 (by decide)⟩
